import Mathlib

/-!
Verification of the EMS load-management core against its specification.

The development shallowly embeds `app/core/load_management.py`,
`app/core/bess_controller.py` and the pure decision logic of
`app/services/session_service.py` / `app/services/session_service_mqtt.py`.
Numeric power/energy values (Python floats) are modelled as exact rationals;
`round(x, 1)` is modelled as exact round-half-to-even at one decimal.
Timestamps and database/MQTT side effects are outside the model: only the
in-memory session registry and the BESS controller state are represented.
-/

namespace EMS

/-- `app/models/session.py`: `SessionStatus` enum. -/
inductive SessionStatus where
  | active
  | charging
  | completed
  | stopped
deriving DecidableEq, BEq, Repr

/-- `app/models/session.py`: `ChargingSession` (timestamps omitted). -/
structure ChargingSession where
  sessionId : String
  chargerId : String
  connectorId : Nat
  status : SessionStatus
  vehicleMaxPower : ℚ
  allocatedPower : ℚ
  consumedPower : ℚ
  offeredPower : ℚ
  totalEnergy : ℚ
  vehicleSoc : Option ℚ
deriving DecidableEq, Repr

/-- `app/models/session.py`: `PowerAllocation`. -/
structure PowerAllocation where
  sessionId : String
  chargerId : String
  connectorId : Nat
  allocatedPower : ℚ
  consumedPower : ℚ
  vehicleMaxPower : ℚ
deriving DecidableEq, Repr

/-- `app/models/station.py`: `ConnectorConfig` (type tag omitted). -/
structure ConnectorConfig where
  connector_id : Nat
  max_power : ℚ
deriving DecidableEq, Repr

/-- `app/models/station.py`: `ChargerConfig`. -/
structure ChargerConfig where
  id : String
  maxPower : ℚ
  connectors : List ConnectorConfig
deriving DecidableEq, Repr

/-- `app/models/station.py`: `BatteryConfig`. -/
structure BatteryConfig where
  initialCapacity : ℚ
  power : ℚ
  minSOC : ℚ
  maxSOC : ℚ
deriving DecidableEq, Repr

/-- `app/models/station.py`: `StationConfig`. -/
structure StationConfig where
  stationId : String
  gridCapacity : ℚ
  chargers : List ChargerConfig
  battery : Option BatteryConfig
  staticLoad : ℚ
deriving DecidableEq, Repr

/-- `app/models/bess.py`: `BESSMode` enum. -/
inductive BESSMode where
  | idle
  | charging
  | discharging
  | boost
deriving DecidableEq, BEq, Repr

/-- `app/models/bess.py`: `BESSStatus` (timestamp omitted). -/
structure BESSStatus where
  mode : BESSMode
  power : ℚ
  soc : ℚ
  capacity : ℚ
  availableEnergy : ℚ
  availableDischarge : ℚ
  availableCharge : ℚ
deriving DecidableEq, Repr

/-- `app/models/bess.py`: `BESSCommand`. -/
structure BESSCommand where
  command : String
  power : ℚ
deriving DecidableEq, Repr

/-- Python `round` on an exact value: round half to even (banker's rounding)
to the nearest integer, as CPython does for ties. -/
def roundHalfEven (q : ℚ) : ℤ :=
  let f := q.floor
  if q - f < 1/2 then f
  else if q - f > 1/2 then f + 1
  else if f % 2 = 0 then f else f + 1

/-- Python `round(x, 1)` on an exact value: one decimal, ties to even. A tie
at one decimal (an odd multiple of 1/20) is never representable as a double,
so the tie branch decides no execution of the source; the statements below
rely on it at no point — concrete evaluations use inputs a strict distance
away from a tie, and the bounds use only `|round1 q - q| ≤ 1/20`, which the
source's float rounding satisfies as well. -/
def round1 (q : ℚ) : ℚ :=
  (roundHalfEven (q * 10) : ℚ) / 10

/-- `load_management.py` `_get_charger_connector_limit`: charger power shared
among the sessions of that charger that are active in the load manager's own
registry (`self.sessions`, here the `registry` argument); `0` when the charger
is not in the topology. -/
def getChargerConnectorLimit (config : StationConfig)
    (registry : List ChargingSession) (chargerId : String) : ℚ :=
  match config.chargers.find? (fun c => c.id == chargerId) with
  | none => 0
  | some chargerConfig =>
    let activeConnectors :=
      (registry.filter (fun s =>
        s.chargerId == chargerId && s.status == SessionStatus.active)).length
    let activeConnectors := if activeConnectors = 0 then 1 else activeConnectors
    chargerConfig.maxPower / (activeConnectors : ℚ)

/-- `load_management.py` line 54: `min(s.vehicleMaxPower, connector limit)`. -/
def sessionDemand (config : StationConfig) (registry : List ChargingSession)
    (s : ChargingSession) : ℚ :=
  min s.vehicleMaxPower (getChargerConnectorLimit config registry s.chargerId)

/-- `load_management.py` lines 52-56: the summed demand of the sessions. -/
def totalDemandOf (config : StationConfig) (registry : List ChargingSession)
    (sessions : List ChargingSession) : ℚ :=
  (sessions.map (sessionDemand config registry)).sum

/-- `load_management.py` lines 45-48: BESS discharge counted only when both a
snapshot is passed and the station config has a battery. -/
def availableBessOf (config : StationConfig) (bess : Option BESSStatus) : ℚ :=
  match bess, config.battery with
  | some b, some _ => b.availableDischarge
  | _, _ => 0

/-- `load_management.py` line 50: `total_available = available_grid + available_bess`. -/
def totalAvailableOf (config : StationConfig) (bess : Option BESSStatus) : ℚ :=
  (config.gridCapacity - config.staticLoad) + availableBessOf config bess

/-- `load_management.py` lines 58-64: the proportional limitation factor.
The source evaluates `total_available / total_demand` only in the else
branch; this total function returns `0` where Python would raise
`ZeroDivisionError` (`total_demand = 0` there) — that exception is made
explicit by `calculatePowerAllocationChecked` below. -/
def allocationFactor (config : StationConfig) (registry : List ChargingSession)
    (sessions : List ChargingSession) (bess : Option BESSStatus) : ℚ :=
  if totalDemandOf config registry sessions ≤ totalAvailableOf config bess then 1
  else totalAvailableOf config bess / totalDemandOf config registry sessions

/-- `load_management.py` `calculate_power_allocation`. The `registry` argument
stands for `self.sessions` (used by `_get_charger_connector_limit`), the
`sessions` argument for the method's parameter; every modelled caller passes
the same registry for both, as the source does. -/
def calculatePowerAllocation (config : StationConfig)
    (registry : List ChargingSession) (sessions : List ChargingSession)
    (bess : Option BESSStatus) : List PowerAllocation :=
  if sessions.isEmpty then []
  else
    sessions.map (fun s =>
      { sessionId := s.sessionId
        chargerId := s.chargerId
        connectorId := s.connectorId
        allocatedPower :=
          round1 (sessionDemand config registry s *
            allocationFactor config registry sessions bess)
        consumedPower := s.consumedPower
        vehicleMaxPower := s.vehicleMaxPower })

/-- `calculate_power_allocation` with its failure mode made explicit: the
source divides `total_available / total_demand` only when the total demand
exceeds the total available power, and raises `ZeroDivisionError` when
`total_demand` is zero there (possible when `staticLoad > gridCapacity`);
`none` models that exception, every other input returns the allocation list
of `calculatePowerAllocation`. -/
def calculatePowerAllocationChecked (config : StationConfig)
    (registry sessions : List ChargingSession) (bess : Option BESSStatus) :
    Option (List PowerAllocation) :=
  if sessions.isEmpty then some []
  else if totalDemandOf config registry sessions ≤
      totalAvailableOf config bess then
    some (calculatePowerAllocation config registry sessions bess)
  else if totalDemandOf config registry sessions = 0 then none
  else some (calculatePowerAllocation config registry sessions bess)

/-- Python dict assignment `self.sessions[session_id] = new_session`:
replace in place when the key exists, append otherwise. -/
def dictInsert (registry : List ChargingSession) (s : ChargingSession) :
    List ChargingSession :=
  if registry.any (fun t => t.sessionId == s.sessionId) then
    registry.map (fun t => if t.sessionId == s.sessionId then s else t)
  else registry ++ [s]

/-- One step of `for alloc in allocations: if alloc.sessionId in self.sessions:
...` — update the matching registry entries. `setOffered` distinguishes
`handle_power_update` (sets `allocatedPower` and `offeredPower`) from
`handle_session_start` / `handle_session_stop` (set only `allocatedPower`). -/
def applyAllocation (setOffered : Bool) (registry : List ChargingSession)
    (a : PowerAllocation) : List ChargingSession :=
  registry.map (fun s =>
    if s.sessionId == a.sessionId then
      if setOffered then
        { s with allocatedPower := a.allocatedPower,
                 offeredPower := a.allocatedPower }
      else { s with allocatedPower := a.allocatedPower }
    else s)

/-- The whole `for alloc in allocations` loop. -/
def applyAllocations (setOffered : Bool) (registry : List ChargingSession)
    (allocs : List PowerAllocation) : List ChargingSession :=
  allocs.foldl (applyAllocation setOffered) registry

/-- `load_management.py` `handle_session_start`: insert the fresh session,
recompute the allocation over all sessions (no BESS snapshot is passed),
store the new `allocatedPower` values, and return the allocation granted to
the new session (`0.0` when absent). Timestamps are outside the model. -/
def handleSessionStart (config : StationConfig)
    (registry : List ChargingSession) (sessionId chargerId : String)
    (connectorId : Nat) (vehicleMaxPower : ℚ) :
    List ChargingSession × ℚ :=
  let newSession : ChargingSession :=
    { sessionId := sessionId
      chargerId := chargerId
      connectorId := connectorId
      status := SessionStatus.active
      vehicleMaxPower := vehicleMaxPower
      allocatedPower := 0
      consumedPower := 0
      offeredPower := 0
      totalEnergy := 0
      vehicleSoc := none }
  let registry1 := dictInsert registry newSession
  let allocations := calculatePowerAllocation config registry1 registry1 none
  let registry2 := applyAllocations false registry1 allocations
  let newAllocated :=
    match allocations.find? (fun a => a.sessionId == sessionId) with
    | some a => a.allocatedPower
    | none => 0
  (registry2, newAllocated)

/-- `load_management.py` `handle_power_update`: update the session's
`consumedPower` and `vehicleMaxPower`, recompute the allocation with the given
BESS snapshot, store `allocatedPower` and `offeredPower` for every session,
and return the session's new allocation. When the session is unknown the
registry is untouched and `0.0` is returned. -/
def handlePowerUpdate (config : StationConfig)
    (registry : List ChargingSession) (sessionId : String)
    (consumedPower vehicleMaxPower : ℚ) (bess : Option BESSStatus) :
    List ChargingSession × ℚ :=
  match registry.find? (fun s => s.sessionId == sessionId) with
  | none => (registry, 0)
  | some _ =>
    let registry1 := registry.map (fun s =>
      if s.sessionId == sessionId then
        { s with consumedPower := consumedPower,
                 vehicleMaxPower := vehicleMaxPower }
      else s)
    let allocations := calculatePowerAllocation config registry1 registry1 bess
    let registry2 := applyAllocations true registry1 allocations
    let newAllocated :=
      match allocations.find? (fun a => a.sessionId == sessionId) with
      | some a => a.allocatedPower
      | none => 0
    (registry2, newAllocated)

/-- Errors raised by `session_service*.create_session` (`ValueError`s for an
unknown charger or connector). The source has no `CONNECTOR_BUSY` error; the
constructor is declared here so the spec's claimed behaviour can be stated. -/
inductive SessionError where
  | unknownCharger
  | unknownConnector
  | connectorBusy
deriving DecidableEq, Repr

/-- `session_service.py` / `session_service_mqtt.py` `create_session`, pure
in-memory part: look up the charger and connector in the topology (the DB
mirrors the station config), then run the load manager's
`handle_session_start`. Persistence and MQTT publication are side effects
outside the model. No occupancy check is performed before creating the
session, exactly as in the source. -/
def createSession (config : StationConfig) (registry : List ChargingSession)
    (sessionId chargerId : String) (connectorId : Nat)
    (vehicleMaxPower : ℚ) :
    Except SessionError (List ChargingSession × ℚ) :=
  match config.chargers.find? (fun c => c.id == chargerId) with
  | none => Except.error SessionError.unknownCharger
  | some charger =>
    match charger.connectors.find? (fun c => c.connector_id == connectorId) with
    | none => Except.error SessionError.unknownConnector
    | some _ =>
      Except.ok (handleSessionStart config registry sessionId chargerId
        connectorId vehicleMaxPower)

/-- `session_service_mqtt.py` `update_power_and_energy`, pure in-memory part:
overwrite the session's `consumedPower`, `vehicleMaxPower`, `totalEnergy` and
(when given) `vehicleSoc`, recompute the allocation, store `allocatedPower`
and `offeredPower`, and return the new allocation. The incoming `totalEnergy`
is stored unconditionally — the source performs no monotonicity check. -/
def updatePowerAndEnergy (config : StationConfig)
    (registry : List ChargingSession) (sessionId : String)
    (consumedPower vehicleMaxPower totalEnergy : ℚ) (vehicleSoc : Option ℚ)
    (bess : Option BESSStatus) : List ChargingSession × ℚ :=
  match registry.find? (fun s => s.sessionId == sessionId) with
  | none => (registry, 0)
  | some _ =>
    let registry1 := registry.map (fun s =>
      if s.sessionId == sessionId then
        { s with consumedPower := consumedPower,
                 vehicleMaxPower := vehicleMaxPower,
                 totalEnergy := totalEnergy,
                 vehicleSoc := match vehicleSoc with
                               | some v => some v
                               | none => s.vehicleSoc }
      else s)
    let allocations := calculatePowerAllocation config registry1 registry1 bess
    let registry2 := applyAllocations true registry1 allocations
    let newAllocated :=
      match allocations.find? (fun a => a.sessionId == sessionId) with
      | some a => a.allocatedPower
      | none => 0
    (registry2, newAllocated)

/-- `bess_controller.py`: the controller's mutable state. -/
structure BESSState where
  current_soc : ℚ
  current_power : ℚ
  mode : BESSMode
deriving DecidableEq, Repr

/-- `bess_controller.py` `_calculate_available_energy`:
`max(0, soc - minSOC) / 100 * initialCapacity`. -/
def calculateAvailableEnergy (config : BatteryConfig) (st : BESSState) : ℚ :=
  max 0 (st.current_soc - config.minSOC) / 100 * config.initialCapacity

/-- `bess_controller.py` `_calculate_available_discharge`: `0` at or below
`minSOC`, otherwise the battery power limited by the available energy
(one hour of drain). -/
def calculateAvailableDischarge (config : BatteryConfig) (st : BESSState) : ℚ :=
  if st.current_soc ≤ config.minSOC then 0
  else min config.power (calculateAvailableEnergy config st)

/-- `bess_controller.py` `_calculate_available_charge`: `0` at or above
`maxSOC`, otherwise the battery power limited by the headroom to `maxSOC`. -/
def calculateAvailableCharge (config : BatteryConfig) (st : BESSState) : ℚ :=
  if st.current_soc ≥ config.maxSOC then 0
  else min config.power ((config.maxSOC - st.current_soc) / 100 * config.initialCapacity)

/-- `bess_controller.py` `calculate_boost_power`: the shortage of grid power
against total demand, limited by the available discharge power. -/
def calculateBoostPower (config : BatteryConfig) (st : BESSState)
    (gridAvailable totalDemand : ℚ) : ℚ :=
  let shortage := max 0 (totalDemand - gridAvailable)
  if shortage = 0 then 0
  else min shortage (calculateAvailableDischarge config st)

/-- `bess_controller.py` `calculate_charge_opportunity`: spare grid power
limited by the available charge, zeroed below the 5 kW minimum threshold. -/
def calculateChargeOpportunity (config : BatteryConfig) (st : BESSState)
    (gridAvailable currentLoad : ℚ) : ℚ :=
  if st.current_soc ≥ config.maxSOC then 0
  else
    let sparePower := gridAvailable - currentLoad
    if sparePower ≤ 0 then 0
    else
      let chargePower := min sparePower (calculateAvailableCharge config st)
      if chargePower < 5 then 0 else chargePower

/-- `bess_controller.py` `apply_power`: integrate the power over the duration,
update the SOC clamped to `[minSOC, maxSOC]`, and derive the mode from the
sign and magnitude of the power. -/
def applyPower (config : BatteryConfig) (st : BESSState)
    (power durationSeconds : ℚ) : BESSState :=
  let energyKwh := power * durationSeconds / 3600
  let socChange := energyKwh / config.initialCapacity * 100
  let newSoc := st.current_soc - socChange
  { current_soc := max config.minSOC (min config.maxSOC newSoc)
    current_power := power
    mode :=
      if |power| < 1/10 then BESSMode.idle
      else if power > 0 then BESSMode.discharging
      else BESSMode.charging }

/-- `bess_controller.py` `set_idle`: idle mode, zero power. -/
def setIdle (st : BESSState) : BESSState × BESSCommand :=
  ({ st with mode := BESSMode.idle, current_power := 0 },
   { command := "idle", power := 0 })

/-- `bess_controller.py` `set_discharge`: clamp the request to the available
discharge power; degrade to idle below 0.1 kW. -/
def setDischarge (config : BatteryConfig) (st : BESSState) (power : ℚ) :
    BESSState × BESSCommand :=
  let available := calculateAvailableDischarge config st
  let actualPower := min power available
  if actualPower < 1/10 then setIdle st
  else ({ st with mode := BESSMode.boost },
        { command := "discharge", power := actualPower })

/-- `bess_controller.py` `set_charge`: clamp the request to the available
charge power; degrade to idle below 0.1 kW. -/
def setCharge (config : BatteryConfig) (st : BESSState) (power : ℚ) :
    BESSState × BESSCommand :=
  let available := calculateAvailableCharge config st
  let actualPower := min power available
  if actualPower < 1/10 then setIdle st
  else ({ st with mode := BESSMode.charging },
        { command := "charge", power := actualPower })

/-- `bess_controller.py` `update_from_telemetry`: copy the reported SOC and
power verbatim and derive the mode (0.1 kW idle threshold). -/
def updateFromTelemetry (_st : BESSState) (soc power : ℚ) : BESSState :=
  { current_soc := soc
    current_power := power
    mode :=
      if |power| < 1/10 then BESSMode.idle
      else if power > 0 then BESSMode.discharging
      else BESSMode.charging }

/-- `session_service.py` lines 295-302: the summed `consumedPower`. -/
def totalConsumedOf (registry : List ChargingSession) : ℚ :=
  (registry.map (fun s => s.consumedPower)).sum

/-- `session_service.py` `_optimize_bess_usage` /
`session_service_mqtt.py` `_optimize_and_publish_bess`, decision logic for a
station with a battery: boost when demand exceeds the grid, charge below 70 %
utilisation, idle otherwise. The returned option is the `BESSCommand` issued
(none when the computed boost or charge power is not positive). -/
def optimizeBessUsage (config : StationConfig) (bcfg : BatteryConfig)
    (st : BESSState) (registry : List ChargingSession) :
    BESSState × Option BESSCommand :=
  let gridAvailable := config.gridCapacity - config.staticLoad
  let totalConsumed := totalConsumedOf registry
  let totalDemand := totalDemandOf config registry registry
  if gridAvailable < totalDemand then
    let boostPower := calculateBoostPower bcfg st gridAvailable totalDemand
    if 0 < boostPower then
      let r := setDischarge bcfg st boostPower
      (r.1, some r.2)
    else (st, none)
  else if totalConsumed < gridAvailable * (7/10) then
    let chargePower :=
      calculateChargeOpportunity bcfg st gridAvailable totalConsumed
    if 0 < chargePower then
      let r := setCharge bcfg st chargePower
      (r.1, some r.2)
    else (st, none)
  else
    let r := setIdle st
    (r.1, some r.2)

/-- The discharge capability named by the spec's grid-compliance bound:
the snapshot's `availableDischarge`, or `0` when no snapshot is supplied. -/
def snapshotDischargeKW (bess : Option BESSStatus) : ℚ :=
  match bess with
  | none => 0
  | some b => b.availableDischarge

/-- Two sessions agree on every field except possibly `allocatedPower` and
`offeredPower` (the only fields the allocation loop writes). -/
def sameCore (s t : ChargingSession) : Prop :=
  s.sessionId = t.sessionId ∧ s.chargerId = t.chargerId ∧
  s.connectorId = t.connectorId ∧ s.status = t.status ∧
  s.vehicleMaxPower = t.vehicleMaxPower ∧ s.consumedPower = t.consumedPower ∧
  s.totalEnergy = t.totalEnergy ∧ s.vehicleSoc = t.vehicleSoc

end EMS

namespace EMS

set_option maxRecDepth 20000

def exConnector1 : ConnectorConfig := { connector_id := 1, max_power := 150 }

def exCharger : ChargerConfig :=
  { id := "CP001", maxPower := 200,
    connectors := [exConnector1, { connector_id := 2, max_power := 150 }] }

def exStation : StationConfig :=
  { stationId := "ST1", gridCapacity := 400, chargers := [exCharger],
    battery := none, staticLoad := 3 }

def exSession (vmax : ℚ) : ChargingSession :=
  { sessionId := "S1", chargerId := "CP001", connectorId := 1,
    status := SessionStatus.active, vehicleMaxPower := vmax,
    allocatedPower := 0, consumedPower := 0, offeredPower := 0,
    totalEnergy := 0, vehicleSoc := none }

def exSessionE5 : ChargingSession := { exSession 150 with totalEnergy := 5 }
def exSessionBig : ChargingSession := { exSession 500 with consumedPower := 10 }
def exSessionLoad20 : ChargingSession := { exSession 150 with consumedPower := 20 }
def exBattery90 : BatteryConfig := { initialCapacity := 200, power := 100, minSOC := 10, maxSOC := 90 }
def exBattery100 : BatteryConfig := { initialCapacity := 200, power := 100, minSOC := 10, maxSOC := 100 }
def exBessLow : BESSState := { current_soc := 5, current_power := 0, mode := BESSMode.idle }
def exBessMid : BESSState := { current_soc := 60, current_power := 0, mode := BESSMode.idle }
def exBessFull : BESSState := { current_soc := 100, current_power := 0, mode := BESSMode.idle }

def exStationBig : StationConfig :=
  { stationId := "ST1", gridCapacity := 400,
    chargers := [{ id := "CP001", maxPower := 1000,
                   connectors := [{ connector_id := 1, max_power := 1000 }] }],
    battery := some exBattery90, staticLoad := 3 }

/-- A station whose static load (3 kW) exceeds its grid capacity (2 kW);
both parameters are positive, so it passes the boot validation. -/
def exStationTiny : StationConfig :=
  { stationId := "ST2", gridCapacity := 2, chargers := [exCharger],
    battery := none, staticLoad := 3 }

/-- The allocation entry produced for `exSession 150` alone on `exStation`. -/
def exAlloc150 : PowerAllocation :=
  { sessionId := "S1", chargerId := "CP001", connectorId := 1,
    allocatedPower := 150, consumedPower := 0, vehicleMaxPower := 150 }

/-- A session whose charger is absent from `exStation`'s topology. -/
def exSessionGhost : ChargingSession := { exSession 5 with chargerId := "CPX" }

/-- The allocation entry produced for `exSessionGhost` on `exStation`. -/
def exAllocGhost : PowerAllocation :=
  { sessionId := "S1", chargerId := "CPX", connectorId := 1,
    allocatedPower := 0, consumedPower := 0, vehicleMaxPower := 5 }

/-- `exSession 150` after a power update reporting 10 kW consumed. -/
def exSessionUpdated : ChargingSession :=
  { exSession 150 with
      consumedPower := 10, allocatedPower := 150, offeredPower := 150 }

/-- `exSessionE5` after an update whose incoming energy (4.8 kWh) is smaller
than the stored 5 kWh. -/
def exSessionStale : ChargingSession :=
  { exSession 150 with
      consumedPower := 10, totalEnergy := 24/5, allocatedPower := 150,
      offeredPower := 150 }








end EMS

namespace EMS

theorem ratFloor_eq_intFloor (q : ℚ) : (q.floor : ℤ) = ⌊q⌋ := rfl

theorem roundHalfEven_le (q : ℚ) : (roundHalfEven q : ℚ) ≤ q + 1/2 := by
  have h1 : (↑⌊q⌋ : ℚ) ≤ q := Int.floor_le q
  have h2 : q < ↑⌊q⌋ + 1 := Int.lt_floor_add_one q
  simp only [roundHalfEven, ratFloor_eq_intFloor]
  split_ifs <;> push_cast <;> linarith

theorem le_roundHalfEven (q : ℚ) : q - 1/2 ≤ (roundHalfEven q : ℚ) := by
  have h1 : (↑⌊q⌋ : ℚ) ≤ q := Int.floor_le q
  have h2 : q < ↑⌊q⌋ + 1 := Int.lt_floor_add_one q
  simp only [roundHalfEven, ratFloor_eq_intFloor]
  split_ifs <;> push_cast <;> linarith

theorem round1_le (q : ℚ) : round1 q ≤ q + 1/20 := by
  have h := roundHalfEven_le (q * 10)
  unfold round1
  linarith

theorem le_round1 (q : ℚ) : q - 1/20 ≤ round1 q := by
  have h := le_roundHalfEven (q * 10)
  unfold round1
  linarith

theorem sum_map_add_const {α : Type} (l : List α) (f : α → ℚ) (c : ℚ) :
    (l.map (fun a => f a + c)).sum = (l.map f).sum + l.length * c := by
  induction l with
  | nil => simp
  | cons x xs ih =>
    simp only [List.map_cons, List.sum_cons, ih, List.length_cons]
    push_cast
    ring

theorem sum_map_mul_const {α : Type} (l : List α) (f : α → ℚ) (c : ℚ) :
    (l.map (fun a => f a * c)).sum = (l.map f).sum * c := by
  induction l with
  | nil => simp
  | cons x xs ih =>
    simp only [List.map_cons, List.sum_cons, ih]
    ring

end EMS

namespace EMS

theorem availableBessOf_nonneg (config : StationConfig) (bess : Option BESSStatus)
    (h : 0 ≤ snapshotDischargeKW bess) : 0 ≤ availableBessOf config bess := by
  cases bess with
  | none => simp [availableBessOf]
  | some b =>
    cases hb : config.battery with
    | none => simp [availableBessOf, hb]
    | some p => simpa [availableBessOf, hb, snapshotDischargeKW] using h

theorem availableBessOf_le (config : StationConfig) (bess : Option BESSStatus)
    (h : 0 ≤ snapshotDischargeKW bess) :
    availableBessOf config bess ≤ snapshotDischargeKW bess := by
  cases bess with
  | none => simp [availableBessOf, snapshotDischargeKW]
  | some b =>
    cases hb : config.battery with
    | none => simpa [availableBessOf, hb, snapshotDischargeKW] using h
    | some p => simp [availableBessOf, hb, snapshotDischargeKW]

theorem calculatePowerAllocation_of_ne_nil (config : StationConfig)
    (registry sessions : List ChargingSession) (bess : Option BESSStatus)
    (hne : sessions ≠ []) :
    calculatePowerAllocation config registry sessions bess =
      sessions.map (fun s =>
        { sessionId := s.sessionId
          chargerId := s.chargerId
          connectorId := s.connectorId
          allocatedPower :=
            round1 (sessionDemand config registry s *
              allocationFactor config registry sessions bess)
          consumedPower := s.consumedPower
          vehicleMaxPower := s.vehicleMaxPower }) := by
  have hie : sessions.isEmpty = false := by
    cases sessions with
    | nil => exact absurd rfl hne
    | cons a l => rfl
  simp [calculatePowerAllocation, hie]

theorem demand_mul_factor_le (config : StationConfig)
    (registry sessions : List ChargingSession) (bess : Option BESSStatus)
    (hA : 0 ≤ totalAvailableOf config bess) :
    totalDemandOf config registry sessions *
      allocationFactor config registry sessions bess ≤
      totalAvailableOf config bess := by
  unfold allocationFactor
  split_ifs with hle
  · simpa using hle
  · push_neg at hle
    have hD : 0 < totalDemandOf config registry sessions := lt_of_le_of_lt hA hle
    rw [mul_comm, div_mul_cancel₀ _ hD.ne']

end EMS

namespace EMS

/-- C1. Grid compliance with rounding slack: for a non-empty set of sessions,
any topology and any optional battery snapshot (with a non-negative grid
budget and a non-negative snapshot discharge capability), the summed
allocation of `calculate_power_allocation` is at most
`(gridCapacity - staticLoad) + availableDischargeKW + 0.1 * |S|`, where
`availableDischargeKW` is `0` when no snapshot is supplied. -/
theorem allocator_grid_compliance (config : StationConfig)
    (registry sessions : List ChargingSession) (bess : Option BESSStatus)
    (hne : sessions ≠ [])
    (hgrid : 0 ≤ config.gridCapacity - config.staticLoad)
    (hbess : 0 ≤ snapshotDischargeKW bess) :
    ((calculatePowerAllocation config registry sessions bess).map
        (fun a => a.allocatedPower)).sum ≤
      (config.gridCapacity - config.staticLoad) + snapshotDischargeKW bess +
        (1/10) * (sessions.length : ℚ) := by
  have hA : 0 ≤ totalAvailableOf config bess :=
    add_nonneg hgrid (availableBessOf_nonneg config bess hbess)
  rw [calculatePowerAllocation_of_ne_nil config registry sessions bess hne,
      List.map_map]
  have hmap : ((fun a : PowerAllocation => a.allocatedPower) ∘ fun s =>
      ({ sessionId := s.sessionId
         chargerId := s.chargerId
         connectorId := s.connectorId
         allocatedPower :=
           round1 (sessionDemand config registry s *
             allocationFactor config registry sessions bess)
         consumedPower := s.consumedPower
         vehicleMaxPower := s.vehicleMaxPower } : PowerAllocation)) =
      fun s => round1 (sessionDemand config registry s *
        allocationFactor config registry sessions bess) := rfl
  rw [hmap]
  have h1 : (sessions.map (fun s => round1 (sessionDemand config registry s *
        allocationFactor config registry sessions bess))).sum ≤
      (sessions.map (fun s => sessionDemand config registry s *
        allocationFactor config registry sessions bess + 1/20)).sum :=
    List.sum_le_sum (fun s _ => round1_le _)
  have h2 : (sessions.map (fun s => sessionDemand config registry s *
        allocationFactor config registry sessions bess + 1/20)).sum =
      totalDemandOf config registry sessions *
        allocationFactor config registry sessions bess +
        (sessions.length : ℚ) * (1/20) := by
    rw [sum_map_add_const sessions
        (fun s => sessionDemand config registry s *
          allocationFactor config registry sessions bess) (1/20),
        sum_map_mul_const]
    rfl
  have h3 := demand_mul_factor_le config registry sessions bess hA
  have h4 := availableBessOf_le config bess hbess
  have h5 : (0:ℚ) ≤ (sessions.length : ℚ) := Nat.cast_nonneg _
  have hAdef : totalAvailableOf config bess =
      (config.gridCapacity - config.staticLoad) + availableBessOf config bess := rfl
  linarith

end EMS

namespace EMS

theorem getChargerConnectorLimit_nonneg (config : StationConfig)
    (registry : List ChargingSession) (chargerId : String)
    (hch : ∀ c ∈ config.chargers, 0 ≤ c.maxPower) :
    0 ≤ getChargerConnectorLimit config registry chargerId := by
  unfold getChargerConnectorLimit
  cases hf : config.chargers.find? (fun c => c.id == chargerId) with
  | none => exact le_refl 0
  | some c =>
    have hc : c ∈ config.chargers := List.mem_of_find?_eq_some hf
    exact div_nonneg (hch c hc) (Nat.cast_nonneg _)

theorem allocationFactor_le_one (config : StationConfig)
    (registry sessions : List ChargingSession) (bess : Option BESSStatus)
    (hA : 0 ≤ totalAvailableOf config bess) :
    allocationFactor config registry sessions bess ≤ 1 := by
  unfold allocationFactor
  split_ifs with hle
  · exact le_refl 1
  · push_neg at hle
    have hD : 0 < totalDemandOf config registry sessions := lt_of_le_of_lt hA hle
    exact le_of_lt ((div_lt_one hD).2 hle)

theorem round1_zero : round1 0 = 0 := by with_unfolding_all decide

/-- C1 witness: the grid-compliance bound, instantiated on `exStation` with
the single 150 kW session and no battery snapshot. -/
theorem allocator_grid_compliance_witness :
    ((calculatePowerAllocation exStation [exSession 150] [exSession 150] none).map
        (fun a => a.allocatedPower)).sum ≤
      (exStation.gridCapacity - exStation.staticLoad) + snapshotDischargeKW none +
        (1/10) * (([exSession 150].length : ℕ) : ℚ) :=
  allocator_grid_compliance exStation [exSession 150] [exSession 150] none
    (List.cons_ne_nil _ _) (by with_unfolding_all decide)
    (by with_unfolding_all decide)

/-- C2 counterexample: the single session demands 7.36 kW with ample grid
power, yet the allocator rounds up (fractional part 0.6 at one decimal, a
strict distance from any tie, so CPython's `round(7.36, 1) = 7.4` agrees)
and grants 7.4 kW — strictly more than the demand, refuting
`allocated(s) ≤ demand(s)` as stated. -/
theorem allocator_demand_cap_cex :
    sessionDemand exStation [exSession (184/25)] (exSession (184/25)) = 184/25 ∧
    (calculatePowerAllocation exStation [exSession (184/25)]
        [exSession (184/25)] none).map (fun a => a.allocatedPower) = [37/5] ∧
    ¬ ((37/5 : ℚ) ≤ 184/25) := by
  refine ⟨?_, ?_, ?_⟩ <;> with_unfolding_all decide

/-- C2 amended: every allocation entry is bounded by the session's demand
`min(vehicleMaxPower, chargerMaxPower / activeConnectorsOnCharger)` plus the
one-decimal rounding slack of 0.05 kW (the exact statement without the
slack fails whenever the rounding goes upward, e.g. on a 7.36 kW demand). -/
theorem allocator_demand_cap (config : StationConfig)
    (registry sessions : List ChargingSession) (bess : Option BESSStatus)
    (hgrid : 0 ≤ config.gridCapacity - config.staticLoad)
    (hbess : 0 ≤ snapshotDischargeKW bess)
    (hch : ∀ c ∈ config.chargers, 0 ≤ c.maxPower) :
    ∀ a ∈ calculatePowerAllocation config registry sessions bess,
      0 ≤ a.vehicleMaxPower →
      a.allocatedPower ≤
        min a.vehicleMaxPower
          (getChargerConnectorLimit config registry a.chargerId) + 1/20 := by
  intro a ha hva
  by_cases hne : sessions = []
  · subst hne
    simp [calculatePowerAllocation] at ha
  · rw [calculatePowerAllocation_of_ne_nil config registry sessions bess hne] at ha
    obtain ⟨s, hs, rfl⟩ := List.mem_map.1 ha
    dsimp only
    have hA : 0 ≤ totalAvailableOf config bess :=
      add_nonneg hgrid (availableBessOf_nonneg config bess hbess)
    have hF : allocationFactor config registry sessions bess ≤ 1 :=
      allocationFactor_le_one config registry sessions bess hA
    have hlim : 0 ≤ getChargerConnectorLimit config registry s.chargerId :=
      getChargerConnectorLimit_nonneg config registry s.chargerId hch
    have hd : 0 ≤ sessionDemand config registry s := by
      dsimp only at hva
      exact le_min hva hlim
    have h1 : sessionDemand config registry s *
        allocationFactor config registry sessions bess ≤
        sessionDemand config registry s := mul_le_of_le_one_right hd hF
    have h2 := round1_le (sessionDemand config registry s *
      allocationFactor config registry sessions bess)
    have h3 : sessionDemand config registry s =
        min s.vehicleMaxPower (getChargerConnectorLimit config registry s.chargerId) :=
      rfl
    linarith

/-- C2 witness: the demand-plus-slack bound, instantiated at the allocation
entry computed for the single 150 kW session on `exStation`. -/
theorem allocator_demand_cap_witness :
    exAlloc150.allocatedPower ≤
      min exAlloc150.vehicleMaxPower
        (getChargerConnectorLimit exStation [exSession 150] exAlloc150.chargerId) +
        1/20 :=
  allocator_demand_cap exStation [exSession 150] [exSession 150] none
    (by with_unfolding_all decide) (by with_unfolding_all decide)
    (by intro c hc; fin_cases hc; with_unfolding_all decide)
    exAlloc150 (by with_unfolding_all decide) (by with_unfolding_all decide)

/-- C10 counterexample: on `exStationTiny` (static load 3 kW over a 2 kW grid
capacity, both positive so boot validation passes) with only the
unknown-charger session in the registry, the total demand is 0 and the total
available power is -1, so the source reaches `total_available / total_demand`
with a zero divisor and raises `ZeroDivisionError` — the allocator does not
succeed on every input with an unknown charger, refuting the claimed
totality. -/
theorem unknown_charger_zero_allocation_cex :
    exStationTiny.chargers.find?
      (fun c => c.id == exSessionGhost.chargerId) = none ∧
    totalDemandOf exStationTiny [exSessionGhost] [exSessionGhost] = 0 ∧
    totalAvailableOf exStationTiny none < 0 ∧
    calculatePowerAllocationChecked exStationTiny [exSessionGhost]
      [exSessionGhost] none = none := by
  refine ⟨?_, ?_, ?_, ?_⟩ <;> with_unfolding_all decide

/-- C10 amended: provided the grid budget and the snapshot discharge are
non-negative (the region in which the source's proportional division is
defined), a session whose `chargerId` is not in the topology is not an
error: the allocator succeeds (no `ZeroDivisionError` is reached), returns
one entry per session, and such a session's per-connector limit is `0`,
hence (for a non-negative `vehicleMaxPower`) its demand and allocated power
are `0`; other sessions are unaffected. -/
theorem unknown_charger_zero_allocation (config : StationConfig)
    (registry sessions : List ChargingSession) (bess : Option BESSStatus)
    (hgrid : 0 ≤ config.gridCapacity - config.staticLoad)
    (hbess : 0 ≤ snapshotDischargeKW bess) :
    calculatePowerAllocationChecked config registry sessions bess =
      some (calculatePowerAllocation config registry sessions bess) ∧
    (calculatePowerAllocation config registry sessions bess).length =
      sessions.length ∧
    ∀ a ∈ calculatePowerAllocation config registry sessions bess,
      config.chargers.find? (fun c => c.id == a.chargerId) = none →
      0 ≤ a.vehicleMaxPower → a.allocatedPower = 0 := by
  refine ⟨?_, ?_, ?_⟩
  · unfold calculatePowerAllocationChecked
    split_ifs with h1 h2 h3
    · simp [calculatePowerAllocation, h1]
    · rfl
    · exfalso
      have hA : 0 ≤ totalAvailableOf config bess :=
        add_nonneg hgrid (availableBessOf_nonneg config bess hbess)
      push_neg at h2
      rw [h3] at h2
      exact absurd hA (not_le.2 h2)
    · rfl
  · by_cases hne : sessions = []
    · subst hne; simp [calculatePowerAllocation]
    · rw [calculatePowerAllocation_of_ne_nil config registry sessions bess hne]
      exact List.length_map _ _
  · intro a ha hfind hva
    by_cases hne : sessions = []
    · subst hne
      simp [calculatePowerAllocation] at ha
    · rw [calculatePowerAllocation_of_ne_nil config registry sessions bess hne] at ha
      obtain ⟨s, hs, rfl⟩ := List.mem_map.1 ha
      dsimp only at hfind hva ⊢
      have hlim : getChargerConnectorLimit config registry s.chargerId = 0 := by
        unfold getChargerConnectorLimit
        rw [hfind]
      have hdem : sessionDemand config registry s = 0 := by
        unfold sessionDemand
        rw [hlim]
        exact min_eq_right hva
      rw [hdem, zero_mul, round1_zero]

/-- C10 witness: on `exStation` (grid budget 397 kW, no snapshot), the session
on the unknown charger `CPX` is allocated without error, producing exactly
one allocation entry, whose power is `0`. -/
theorem unknown_charger_zero_allocation_witness :
    calculatePowerAllocationChecked exStation [exSessionGhost] [exSessionGhost]
        none =
      some (calculatePowerAllocation exStation [exSessionGhost]
        [exSessionGhost] none) ∧
    (calculatePowerAllocation exStation [exSessionGhost] [exSessionGhost]
        none).length = [exSessionGhost].length ∧
    exAllocGhost.allocatedPower = 0 :=
  ⟨(unknown_charger_zero_allocation exStation [exSessionGhost] [exSessionGhost]
      none (by with_unfolding_all decide) (by with_unfolding_all decide)).1,
   (unknown_charger_zero_allocation exStation [exSessionGhost] [exSessionGhost]
      none (by with_unfolding_all decide) (by with_unfolding_all decide)).2.1,
   (unknown_charger_zero_allocation exStation [exSessionGhost] [exSessionGhost]
      none (by with_unfolding_all decide) (by with_unfolding_all decide)).2.2
      exAllocGhost (by with_unfolding_all decide)
      (by with_unfolding_all decide) (by with_unfolding_all decide)⟩

end EMS

namespace EMS

theorem sameCore_refl (s : ChargingSession) : sameCore s s :=
  ⟨rfl, rfl, rfl, rfl, rfl, rfl, rfl, rfl⟩

theorem sameCore_trans {s t u : ChargingSession} (h1 : sameCore s t)
    (h2 : sameCore t u) : sameCore s u := by
  obtain ⟨a1, a2, a3, a4, a5, a6, a7, a8⟩ := h1
  obtain ⟨b1, b2, b3, b4, b5, b6, b7, b8⟩ := h2
  exact ⟨a1.trans b1, a2.trans b2, a3.trans b3, a4.trans b4, a5.trans b5,
    a6.trans b6, a7.trans b7, a8.trans b8⟩

theorem applyAllocation_sameCore (b : Bool) (registry : List ChargingSession)
    (a : PowerAllocation) :
    ∀ s ∈ applyAllocation b registry a, ∃ t ∈ registry, sameCore s t := by
  intro s hs
  unfold applyAllocation at hs
  obtain ⟨t, ht, rfl⟩ := List.mem_map.1 hs
  refine ⟨t, ht, ?_⟩
  split_ifs <;> exact ⟨rfl, rfl, rfl, rfl, rfl, rfl, rfl, rfl⟩

theorem applyAllocations_sameCore (b : Bool) (allocs : List PowerAllocation)
    (registry : List ChargingSession) :
    ∀ s ∈ applyAllocations b registry allocs, ∃ t ∈ registry, sameCore s t := by
  induction allocs generalizing registry with
  | nil => intro s hs; exact ⟨s, hs, sameCore_refl s⟩
  | cons a as ih =>
    intro s hs
    have hs' : s ∈ applyAllocations b (applyAllocation b registry a) as := hs
    obtain ⟨t', ht', h1⟩ := ih (applyAllocation b registry a) s hs'
    obtain ⟨t, ht, h2⟩ := applyAllocation_sameCore b registry a t' ht'
    exact ⟨t, ht, sameCore_trans h1 h2⟩

theorem applyAllocations_offered (allocs : List PowerAllocation)
    (registry : List ChargingSession) :
    ∀ s ∈ applyAllocations true registry allocs,
      s.allocatedPower = s.offeredPower ∨
        (s ∈ registry ∧ s.sessionId ∉ allocs.map (fun a => a.sessionId)) := by
  induction allocs generalizing registry with
  | nil =>
    intro s hs
    exact Or.inr ⟨hs, by simp⟩
  | cons a as ih =>
    intro s hs
    have hs' : s ∈ applyAllocations true (applyAllocation true registry a) as := hs
    rcases ih (applyAllocation true registry a) s hs' with h | ⟨hmem, hnot⟩
    · exact Or.inl h
    · unfold applyAllocation at hmem
      obtain ⟨t, ht, heq⟩ := List.mem_map.1 hmem
      by_cases hid : (t.sessionId == a.sessionId) = true
      · left
        rw [← heq]
        simp [hid]
      · rw [if_neg hid] at heq
        subst heq
        refine Or.inr ⟨ht, ?_⟩
        simp only [List.map_cons, List.mem_cons, not_or]
        refine ⟨fun h => hid ?_, hnot⟩
        simp [h]

theorem applyAllocation_ids (b : Bool) (registry : List ChargingSession)
    (a : PowerAllocation) :
    (applyAllocation b registry a).map (fun s => s.sessionId) =
      registry.map (fun s => s.sessionId) := by
  unfold applyAllocation
  rw [List.map_map]
  apply List.map_congr_left
  intro t _
  dsimp only [Function.comp]
  split_ifs <;> rfl

theorem applyAllocations_ids (b : Bool) (allocs : List PowerAllocation)
    (registry : List ChargingSession) :
    (applyAllocations b registry allocs).map (fun s => s.sessionId) =
      registry.map (fun s => s.sessionId) := by
  induction allocs generalizing registry with
  | nil => rfl
  | cons a as ih =>
    have h1 : (applyAllocations b registry (a :: as)).map (fun s => s.sessionId) =
        (applyAllocations b (applyAllocation b registry a) as).map
          (fun s => s.sessionId) := rfl
    rw [h1, ih (applyAllocation b registry a), applyAllocation_ids]

theorem calculatePowerAllocation_ids (config : StationConfig)
    (registry sessions : List ChargingSession) (bess : Option BESSStatus)
    (hne : sessions ≠ []) :
    (calculatePowerAllocation config registry sessions bess).map
        (fun a => a.sessionId) =
      sessions.map (fun s => s.sessionId) := by
  rw [calculatePowerAllocation_of_ne_nil config registry sessions bess hne,
      List.map_map]
  rfl

theorem dictInsert_of_not_mem (registry : List ChargingSession)
    (s : ChargingSession)
    (h : s.sessionId ∉ registry.map (fun t => t.sessionId)) :
    dictInsert registry s = registry ++ [s] := by
  unfold dictInsert
  rw [if_neg]
  intro hany
  obtain ⟨t, ht, hbeq⟩ := List.any_eq_true.1 hany
  exact h (List.mem_map.2 ⟨t, ht, beq_iff_eq.1 hbeq⟩)

end EMS

namespace EMS

/-- C3 counterexample: `handle_session_start` on an empty registry grants the
new session 150 kW in `allocatedPower` but leaves `offeredPower` at 0, so
`allocatedPower = offeredPower` does not hold after a session-start event. -/
theorem coordinator_offered_invariant_cex :
    ((handleSessionStart exStation [] "S1" "CP001" 1 150).1.map
      (fun s => (s.allocatedPower, s.offeredPower))) = [(150, 0)] ∧
    ((150 : ℚ) ≠ 0) := by
  refine ⟨?_, ?_⟩ <;> with_unfolding_all decide

/-- C3 amended: the invariant `allocatedPower = offeredPower` holds for every
registry entry after a power-update event on a registered session
(`handle_power_update` writes both fields); after session start and stop only
`allocatedPower` is refreshed, and `offeredPower` keeps its previous value. -/
theorem power_update_offered_invariant (config : StationConfig)
    (registry : List ChargingSession) (sessionId : String)
    (consumedPower vehicleMaxPower : ℚ) (bess : Option BESSStatus)
    (hfound : (registry.find? (fun s => s.sessionId == sessionId)).isSome) :
    ∀ s ∈ (handlePowerUpdate config registry sessionId consumedPower
        vehicleMaxPower bess).1,
      s.allocatedPower = s.offeredPower := by
  intro s hs
  obtain ⟨x, hx⟩ := Option.isSome_iff_exists.1 hfound
  simp only [handlePowerUpdate, hx] at hs
  have hreg : registry ≠ [] := by
    intro h
    subst h
    simp at hx
  have hreg1 : registry.map (fun s =>
      if s.sessionId == sessionId then
        { s with consumedPower := consumedPower,
                 vehicleMaxPower := vehicleMaxPower }
      else s) ≠ [] := by
    simpa using hreg
  rcases applyAllocations_offered _ _ s hs with h | ⟨hmem, hnot⟩
  · exact h
  · exfalso
    rw [calculatePowerAllocation_ids _ _ _ _ hreg1] at hnot
    exact hnot (List.mem_map_of_mem (fun s => s.sessionId) hmem)

/-- C3 witness: the amended invariant instantiated after a power update of the
single session on `exStation`. -/
theorem power_update_offered_invariant_witness :
    exSessionUpdated.allocatedPower = exSessionUpdated.offeredPower :=
  power_update_offered_invariant exStation [exSession 150] "S1" 10 150 none
    (by with_unfolding_all decide) exSessionUpdated
    (by with_unfolding_all decide)

/-- C4 counterexample: with session S1 active on `(CP001, 1)`, starting S2 on
the same `(CP001, 1)` is not rejected: `create_session` returns successfully
and the registry now holds both S1 and S2, refuting the claimed
`CONNECTOR_BUSY` failure. -/
theorem connector_busy_cex :
    (createSession exStation [exSession 150] "S2" "CP001" 1 150).toOption.map
      (fun r => r.1.map (fun s => s.sessionId)) = some ["S1", "S2"] := by
  with_unfolding_all decide

/-- C4 amended: `create_session` performs no occupancy check: for a charger
and connector present in the topology and a fresh session id, it always
succeeds, appending the new session to the registry — even when another
active session already occupies the same `(chargerId, connectorId)` pair. -/
theorem session_start_not_rejected (config : StationConfig)
    (registry : List ChargingSession) (sessionId chargerId : String)
    (connectorId : Nat) (vehicleMaxPower : ℚ) (charger : ChargerConfig)
    (conn : ConnectorConfig)
    (hc : config.chargers.find? (fun c => c.id == chargerId) = some charger)
    (hcon : charger.connectors.find?
      (fun c => c.connector_id == connectorId) = some conn)
    (hnew : sessionId ∉ registry.map (fun t => t.sessionId)) :
    ∃ r, createSession config registry sessionId chargerId connectorId
        vehicleMaxPower = Except.ok r ∧
      r.1.map (fun s => s.sessionId) =
        registry.map (fun s => s.sessionId) ++ [sessionId] := by
  simp only [createSession, hc, hcon]
  refine ⟨_, rfl, ?_⟩
  simp only [handleSessionStart]
  rw [applyAllocations_ids]
  rw [dictInsert_of_not_mem registry _ hnew]
  rw [List.map_append]
  rfl

/-- C4 witness: starting S2 on the occupied `(CP001, 1)` pair of `exStation`
succeeds and the registry's ids become `[S1, S2]`. -/
theorem session_start_not_rejected_witness :
    ∃ r, createSession exStation [exSession 150] "S2" "CP001" 1 150 =
        Except.ok r ∧
      r.1.map (fun s => s.sessionId) =
        [exSession 150].map (fun s => s.sessionId) ++ ["S2"] :=
  session_start_not_rejected exStation [exSession 150] "S2" "CP001" 1 150
    exCharger exConnector1 (by with_unfolding_all decide)
    (by with_unfolding_all decide) (by with_unfolding_all decide)

/-- C5 counterexample: the stored `totalEnergy` is 5 kWh; an update reporting
4.8 kWh is applied, not rejected — the stored value becomes 4.8 kWh, refuting
the claimed stale-update rejection. -/
theorem stale_update_rejection_cex :
    ((updatePowerAndEnergy exStation [exSessionE5] "S1" 10 150 (24/5) none
        none).1.map (fun s => s.totalEnergy)) = [24/5] ∧
    ((24/5 : ℚ) < 5) := by
  refine ⟨?_, ?_⟩ <;> with_unfolding_all decide

/-- C5 amended: `update_power_and_energy` overwrites `totalEnergy`
unconditionally: after an update of a registered session, every registry
entry with that session id carries the incoming `totalEnergy` — also when it
is strictly smaller than the stored value (no monotonicity enforcement, no
warning, no rejection exists in the source). -/
theorem update_overwrites_totalEnergy (config : StationConfig)
    (registry : List ChargingSession) (sessionId : String)
    (consumedPower vehicleMaxPower totalEnergy : ℚ) (vehicleSoc : Option ℚ)
    (bess : Option BESSStatus)
    (hfound : (registry.find? (fun s => s.sessionId == sessionId)).isSome) :
    ∀ s ∈ (updatePowerAndEnergy config registry sessionId consumedPower
        vehicleMaxPower totalEnergy vehicleSoc bess).1,
      s.sessionId = sessionId → s.totalEnergy = totalEnergy := by
  intro s hs hid
  obtain ⟨x, hx⟩ := Option.isSome_iff_exists.1 hfound
  simp only [updatePowerAndEnergy, hx] at hs
  obtain ⟨t, ht, hcore⟩ := applyAllocations_sameCore true _ _ s hs
  obtain ⟨u, hu, rfl⟩ := List.mem_map.1 ht
  by_cases hbeq : (u.sessionId == sessionId) = true
  · rw [if_pos hbeq] at hcore
    exact hcore.2.2.2.2.2.2.1
  · rw [if_neg hbeq] at hcore
    exfalso
    exact hbeq (beq_iff_eq.2 (hcore.1.symm.trans hid))

/-- C5 witness: the overwrite behaviour instantiated on `exStation` with the
stored 5 kWh and the incoming 4.8 kWh. -/
theorem update_overwrites_totalEnergy_witness :
    exSessionStale.totalEnergy = 24/5 :=
  update_overwrites_totalEnergy exStation [exSessionE5] "S1" 10 150 (24/5)
    none none (by with_unfolding_all decide) exSessionStale
    (by with_unfolding_all decide) (by with_unfolding_all decide)

end EMS

namespace EMS

theorem calculateAvailableDischarge_nonneg (bcfg : BatteryConfig)
    (st : BESSState) (hp : 0 ≤ bcfg.power) (hcap : 0 ≤ bcfg.initialCapacity) :
    0 ≤ calculateAvailableDischarge bcfg st := by
  unfold calculateAvailableDischarge
  split_ifs
  · exact le_refl 0
  · refine le_min hp ?_
    unfold calculateAvailableEnergy
    exact mul_nonneg (div_nonneg (le_max_left 0 _) (by norm_num)) hcap

theorem calculateAvailableCharge_nonneg (bcfg : BatteryConfig)
    (st : BESSState) (hp : 0 ≤ bcfg.power) (hcap : 0 ≤ bcfg.initialCapacity) :
    0 ≤ calculateAvailableCharge bcfg st := by
  unfold calculateAvailableCharge
  split_ifs with h
  · exact le_refl 0
  · push_neg at h
    refine le_min hp (mul_nonneg (div_nonneg ?_ (by norm_num)) hcap)
    linarith

/-- C6 counterexample: a telemetry report of SOC 150 % is copied verbatim by
`update_from_telemetry`, leaving the state above `maxSOC` of `exBattery90` —
the claimed SOC-bounds invariant fails for telemetry updates. -/
theorem soc_bounds_cex :
    (updateFromTelemetry exBessFull 150 0).current_soc = 150 ∧
    ¬ ((updateFromTelemetry exBessFull 150 0).current_soc ≤
        exBattery90.maxSOC) := by
  refine ⟨?_, ?_⟩ <;> with_unfolding_all decide

/-- C6 amended: `apply_power` clamps the updated SOC into `[minSOC, maxSOC]`
(whenever `minSOC ≤ maxSOC`), but `update_from_telemetry` stores the reported
SOC verbatim, so the bound is guaranteed after simulated integration steps
only. -/
theorem soc_bounds_apply_power (config : BatteryConfig) (st : BESSState)
    (power durationSeconds soc tpower : ℚ)
    (h : config.minSOC ≤ config.maxSOC) :
    (config.minSOC ≤ (applyPower config st power durationSeconds).current_soc ∧
      (applyPower config st power durationSeconds).current_soc ≤
        config.maxSOC) ∧
    (updateFromTelemetry st soc tpower).current_soc = soc := by
  refine ⟨⟨?_, ?_⟩, rfl⟩
  · simp only [applyPower]
    exact le_max_left _ _
  · simp only [applyPower]
    exact max_le h (min_le_left _ _)

/-- C6 witness: the clamp bound instantiated for a one-hour 100 kW discharge
of a full `exBattery90`, and a verbatim 50 % telemetry copy. -/
theorem soc_bounds_apply_power_witness :
    (exBattery90.minSOC ≤
        (applyPower exBattery90 exBessFull 100 3600).current_soc ∧
      (applyPower exBattery90 exBessFull 100 3600).current_soc ≤
        exBattery90.maxSOC) ∧
    (updateFromTelemetry exBessFull 50 0).current_soc = 50 :=
  soc_bounds_apply_power exBattery90 exBessFull 100 3600 50 0
    (by with_unfolding_all decide)

/-- C7. Boost policy: `calculate_boost_power` returns
`min(totalDemand - gridAvailable, availableDischarge)` when demand exceeds
the grid and the SOC is above `minSOC`; it returns `0` otherwise (in
particular whenever `soc ≤ minSOC`, since then `availableDischarge = 0`);
for non-negative battery parameters the result never exceeds
`availableDischarge`, which above `minSOC` equals
`min(maxPower, availableEnergyKWh)`. -/
theorem bess_boost_policy (bcfg : BatteryConfig) (st : BESSState)
    (gridAvailable totalDemand : ℚ) :
    (gridAvailable < totalDemand ∧ bcfg.minSOC < st.current_soc →
      calculateBoostPower bcfg st gridAvailable totalDemand =
        min (totalDemand - gridAvailable)
          (calculateAvailableDischarge bcfg st)) ∧
    (¬ (gridAvailable < totalDemand ∧ bcfg.minSOC < st.current_soc) →
      calculateBoostPower bcfg st gridAvailable totalDemand = 0) ∧
    (0 ≤ bcfg.power → 0 ≤ bcfg.initialCapacity →
      calculateBoostPower bcfg st gridAvailable totalDemand ≤
        calculateAvailableDischarge bcfg st) ∧
    (bcfg.minSOC < st.current_soc →
      calculateAvailableDischarge bcfg st =
        min bcfg.power (calculateAvailableEnergy bcfg st)) := by
  refine ⟨?_, ?_, ?_, ?_⟩
  · rintro ⟨h1, -⟩
    simp only [calculateBoostPower]
    rw [max_eq_right (sub_pos.2 h1).le, if_neg (sub_pos.2 h1).ne']
  · intro h
    push_neg at h
    by_cases hlt : gridAvailable < totalDemand
    · have hsoc : st.current_soc ≤ bcfg.minSOC := h hlt
      have havail : calculateAvailableDischarge bcfg st = 0 := by
        unfold calculateAvailableDischarge
        rw [if_pos hsoc]
      simp only [calculateBoostPower]
      rw [max_eq_right (sub_pos.2 hlt).le, if_neg (sub_pos.2 hlt).ne', havail]
      exact min_eq_right (sub_pos.2 hlt).le
    · simp only [calculateBoostPower]
      rw [max_eq_left (sub_nonpos.2 (not_lt.1 hlt)), if_pos rfl]
  · intro hp hcap
    have havail := calculateAvailableDischarge_nonneg bcfg st hp hcap
    simp only [calculateBoostPower]
    split_ifs
    · exact havail
    · exact min_le_right _ _
  · intro h
    unfold calculateAvailableDischarge
    rw [if_neg (not_le.2 h)]

/-- C7 witness: the boost branch instantiated at grid 397 kW, demand 600 kW,
SOC 60 % on `exBattery90` (the S3 scenario of the spec). -/
theorem bess_boost_policy_witness :
    calculateBoostPower exBattery90 exBessMid 397 600 =
      min (600 - 397) (calculateAvailableDischarge exBattery90 exBessMid) :=
  (bess_boost_policy exBattery90 exBessMid 397 600).1
    ⟨by with_unfolding_all decide, by with_unfolding_all decide⟩

/-- C9. Command clamping and degrade-to-idle: for a requested power `p ≥ 0`
and non-negative battery parameters, `set_discharge` (resp. `set_charge`)
returns the command `discharge` (resp. `charge`) with power
`min(p, available)`, except that below 0.1 kW it returns the idle command
with power 0; in both cases the commanded power never exceeds the available
discharge (resp. charge) power — the controller never fails. -/
theorem bess_command_clamp (bcfg : BatteryConfig) (st : BESSState) (p : ℚ)
    (_hp : 0 ≤ p) (hpow : 0 ≤ bcfg.power) (hcap : 0 ≤ bcfg.initialCapacity) :
    ((setDischarge bcfg st p).2 =
      (if min p (calculateAvailableDischarge bcfg st) < 1/10 then
        { command := "idle", power := 0 }
      else { command := "discharge",
             power := min p (calculateAvailableDischarge bcfg st) }) ∧
      (setDischarge bcfg st p).2.power ≤
        calculateAvailableDischarge bcfg st) ∧
    ((setCharge bcfg st p).2 =
      (if min p (calculateAvailableCharge bcfg st) < 1/10 then
        { command := "idle", power := 0 }
      else { command := "charge",
             power := min p (calculateAvailableCharge bcfg st) }) ∧
      (setCharge bcfg st p).2.power ≤ calculateAvailableCharge bcfg st) := by
  have hd := calculateAvailableDischarge_nonneg bcfg st hpow hcap
  have hc := calculateAvailableCharge_nonneg bcfg st hpow hcap
  refine ⟨⟨?_, ?_⟩, ?_, ?_⟩ <;>
    simp only [setDischarge, setCharge, setIdle] <;> split_ifs <;>
      first
        | rfl
        | exact hd
        | exact hc
        | exact min_le_right _ _

/-- C9 witness: a 50 kW discharge and charge request on `exBattery90` at
SOC 60 %, both clamped as stated. -/
theorem bess_command_clamp_witness :
    ((setDischarge exBattery90 exBessMid 50).2 =
      (if min 50 (calculateAvailableDischarge exBattery90 exBessMid) < 1/10 then
        { command := "idle", power := 0 }
      else { command := "discharge",
             power := min 50 (calculateAvailableDischarge exBattery90 exBessMid) }) ∧
      (setDischarge exBattery90 exBessMid 50).2.power ≤
        calculateAvailableDischarge exBattery90 exBessMid) ∧
    ((setCharge exBattery90 exBessMid 50).2 =
      (if min 50 (calculateAvailableCharge exBattery90 exBessMid) < 1/10 then
        { command := "idle", power := 0 }
      else { command := "charge",
             power := min 50 (calculateAvailableCharge exBattery90 exBessMid) }) ∧
      (setCharge exBattery90 exBessMid 50).2.power ≤
        calculateAvailableCharge exBattery90 exBessMid) :=
  bess_command_clamp exBattery90 exBessMid 50 (by with_unfolding_all decide)
    (by with_unfolding_all decide) (by with_unfolding_all decide)

end EMS

namespace EMS

/-- C8 counterexample: demand 500 kW exceeds the 397 kW grid but SOC 5 % is
below `minSOC`, so the spec's boost condition does not hold; the load (10 kW)
is under 70 % of the grid and SOC is below `maxSOC`, and the would-be charge
power `min(gridAvailable - load, availableCharge)` is 100 kW ≥ 5 kW — yet the
coordinator, which branches on demand alone, takes the boost branch and
issues no command at all, refuting the claimed charge command. -/
theorem charge_opportunity_cex :
    (¬ ((exStationBig.gridCapacity - exStationBig.staticLoad) <
          totalDemandOf exStationBig [exSessionBig] [exSessionBig] ∧
        exBattery90.minSOC < exBessLow.current_soc)) ∧
    totalConsumedOf [exSessionBig] <
      (exStationBig.gridCapacity - exStationBig.staticLoad) * (7/10) ∧
    exBessLow.current_soc < exBattery90.maxSOC ∧
    (5 : ℚ) ≤ min ((exStationBig.gridCapacity - exStationBig.staticLoad) -
        totalConsumedOf [exSessionBig])
      (calculateAvailableCharge exBattery90 exBessLow) ∧
    (optimizeBessUsage exStationBig exBattery90 exBessLow [exSessionBig]).2 =
      none := by
  refine ⟨?_, ?_, ?_, ?_, ?_⟩ <;> with_unfolding_all decide

/-- C8 amended: in the coordinator's BESS step the charge branch is guarded by
`totalDemand ≤ gridAvailable` (not by the spec's boost condition, which also
requires `soc > minSOC`); under that guard, with load below 70 % of the grid
and SOC below `maxSOC`, the commanded charge power is
`min(gridAvailable - currentLoad, availableCharge)` when that value is at
least 5 kW, and when it is below 5 kW no command is issued at all (the
computed charge power is 0 and the controller state is left unchanged). -/
theorem charge_opportunity_policy (config : StationConfig)
    (bcfg : BatteryConfig) (st : BESSState) (registry : List ChargingSession)
    (hdem : totalDemandOf config registry registry ≤
      config.gridCapacity - config.staticLoad)
    (hload : totalConsumedOf registry <
      (config.gridCapacity - config.staticLoad) * (7/10))
    (hsoc : st.current_soc < bcfg.maxSOC) :
    (5 ≤ min ((config.gridCapacity - config.staticLoad) -
          totalConsumedOf registry) (calculateAvailableCharge bcfg st) →
      (optimizeBessUsage config bcfg st registry).2 =
        some { command := "charge",
               power := min ((config.gridCapacity - config.staticLoad) -
                   totalConsumedOf registry)
                 (calculateAvailableCharge bcfg st) }) ∧
    (min ((config.gridCapacity - config.staticLoad) - totalConsumedOf registry)
        (calculateAvailableCharge bcfg st) < 5 →
      (optimizeBessUsage config bcfg st registry).2 = none) := by
  have hco : calculateChargeOpportunity bcfg st
      (config.gridCapacity - config.staticLoad) (totalConsumedOf registry) =
      (if 5 ≤ min ((config.gridCapacity - config.staticLoad) -
          totalConsumedOf registry) (calculateAvailableCharge bcfg st) then
        min ((config.gridCapacity - config.staticLoad) -
          totalConsumedOf registry) (calculateAvailableCharge bcfg st)
      else 0) := by
    simp only [calculateChargeOpportunity]
    rw [if_neg (not_le.2 hsoc)]
    by_cases h5 : 5 ≤ min ((config.gridCapacity - config.staticLoad) -
        totalConsumedOf registry) (calculateAvailableCharge bcfg st)
    · rw [if_pos h5]
      have h1 : ¬ (config.gridCapacity - config.staticLoad -
          totalConsumedOf registry ≤ 0) := by
        have h2 := le_trans h5 (min_le_left
          (config.gridCapacity - config.staticLoad - totalConsumedOf registry)
          (calculateAvailableCharge bcfg st))
        push_neg
        linarith
      rw [if_neg h1, if_neg (not_lt.2 h5)]
    · rw [if_neg h5]
      push_neg at h5
      by_cases hsp : config.gridCapacity - config.staticLoad -
          totalConsumedOf registry ≤ 0
      · rw [if_pos hsp]
      · rw [if_neg hsp, if_pos h5]
  constructor
  · intro h5
    simp only [optimizeBessUsage]
    rw [if_neg (not_lt.2 hdem), if_pos hload, hco, if_pos h5]
    rw [if_pos (by linarith : (0:ℚ) < min ((config.gridCapacity -
      config.staticLoad) - totalConsumedOf registry)
      (calculateAvailableCharge bcfg st))]
    simp only [setCharge]
    rw [min_eq_left (min_le_right _ _)]
    rw [if_neg (by
      push_neg
      calc (1/10 : ℚ) ≤ 5 := by norm_num
        _ ≤ _ := h5)]
  · intro h5
    simp only [optimizeBessUsage]
    rw [if_neg (not_lt.2 hdem), if_pos hload, hco, if_neg (not_le.2 h5)]
    rw [if_neg (lt_irrefl 0)]

/-- C8 witness: the S5 charge-opportunity scenario — demand within the grid,
load 20 kW, SOC 60 % — commands a charge of
`min(397 - 20, availableCharge) = 80` kW. -/
theorem charge_opportunity_policy_witness :
    (optimizeBessUsage exStation exBattery100 exBessMid [exSessionLoad20]).2 =
      some { command := "charge",
             power := min ((exStation.gridCapacity - exStation.staticLoad) -
                 totalConsumedOf [exSessionLoad20])
               (calculateAvailableCharge exBattery100 exBessMid) } :=
  (charge_opportunity_policy exStation exBattery100 exBessMid [exSessionLoad20]
    (by with_unfolding_all decide) (by with_unfolding_all decide)
    (by with_unfolding_all decide)).1 (by with_unfolding_all decide)

end EMS
